import Mathlib

/-!
# Verification of the tp-comfy setup scripts

Shallow embedding of the pure logic of `setup/download_nodes.py`,
`setup/add_node.py`, `setup/add_model.py`, `setup/download_models.py` and
`setup/detect_gpu.py`, together with theorems checking the repository's
specification against the code.

Python string primitives are embedded on `List Char` with structural
recursion so that every definition is executable by the kernel.
-/

set_option maxRecDepth 4000

/-! ## Python string primitives -/

/-- Python `s.rstrip(chars)`: remove from the right every trailing character
that belongs to the set `cs` (NOT suffix removal). -/
def rstripChars (s : String) (cs : List Char) : String :=
  String.mk ((s.data.reverse.dropWhile (fun c => cs.contains c)).reverse)

/-- Python `s.endswith(suf)`. -/
def pyEndsWith (s suf : String) : Bool :=
  suf.data.isSuffixOf s.data

/-- Python `s.startswith(pre)`. -/
def pyStartsWith (s p : String) : Bool :=
  p.data.isPrefixOf s.data

/-- Python `s.count(c)` for a single-character argument. -/
def pyCountChar (s : String) (c : Char) : Nat :=
  s.data.count c

/-- Split a character list at every occurrence of the character `c`;
mirrors Python `s.split(c)` for a one-character separator. -/
def splitOnCharAux (c : Char) : List Char → List (List Char)
  | [] => [[]]
  | x :: xs =>
    match splitOnCharAux c xs with
    | [] => [[x]]
    | y :: ys => if x = c then [] :: y :: ys else (x :: y) :: ys

/-- Python `s.split(c)` for a one-character separator. -/
def pySplitChar (s : String) (c : Char) : List String :=
  (splitOnCharAux c s.data).map String.mk

/-- Fuel-driven splitter for a multi-character separator; with fuel at least
`length + 1` it mirrors Python `s.split(sep)` (leftmost, non-overlapping). -/
def splitSepFuel (sep : List Char) : Nat → List Char → List (List Char)
  | 0, cs => [cs]
  | _ + 1, [] => [[]]
  | n + 1, x :: xs =>
    if sep.isPrefixOf (x :: xs) then
      [] :: splitSepFuel sep n (List.drop (sep.length - 1) xs)
    else
      match splitSepFuel sep n xs with
      | [] => [[x]]
      | y :: ys => (x :: y) :: ys

/-- Python `s.split(sep)` for a non-empty separator string. -/
def pySplitStr (s sep : String) : List String :=
  (splitSepFuel sep.data (s.data.length + 1) s.data).map String.mk

/-- The whitespace characters of Python's default `strip` / regex `\s`
(ASCII fragment). -/
def pyWhitespace : List Char := [' ', '\t', '\n', '\r', '\x0b', '\x0c']

/-- Python `s.strip()` (ASCII whitespace). -/
def pyStrip (s : String) : String :=
  String.mk
    (((s.data.dropWhile (fun c => pyWhitespace.contains c)).reverse.dropWhile
      (fun c => pyWhitespace.contains c)).reverse)

/-- Fuel-driven deletion of every (leftmost, non-overlapping) occurrence of
`old`; mirrors Python `s.replace(old, "")` for non-empty `old`. -/
def removeAllFuel (old : List Char) : Nat → List Char → List Char
  | 0, cs => cs
  | _ + 1, [] => []
  | n + 1, x :: xs =>
    if old.isPrefixOf (x :: xs) then
      removeAllFuel old n (List.drop (old.length - 1) xs)
    else
      x :: removeAllFuel old n xs

/-- Python `s.replace(old, "")` for a non-empty `old`. -/
def pyRemoveAll (s old : String) : String :=
  String.mk (removeAllFuel old.data (s.data.length + 1) s.data)

/-- Python `needle in haystack` (substring containment), on lists. -/
def containsSubAux (needle : List Char) : List Char → Bool
  | [] => needle.isEmpty
  | c :: cs => needle.isPrefixOf (c :: cs) || containsSubAux needle cs

/-- Python `needle in haystack` (substring containment). -/
def pyContainsStr (hay needle : String) : Bool :=
  containsSubAux needle.data hay.data

/-- Python `s.isdigit()` (ASCII digits; the repository only meets ASCII). -/
def pyIsdigit (s : String) : Bool :=
  s ≠ "" && s.data.all Char.isDigit

/-! ## `setup/download_nodes.py` — repository synchronizer -/

/-- `extract_repo_name` from `download_nodes.py` (and, identically, from
`add_node.py`):
`url.rstrip("/").rstrip(".git")`, then the last `"/"`-separated field.
Note that Python's `rstrip(".git")` strips a trailing RUN of the characters
`.`, `g`, `i`, `t`, not the `".git"` suffix. -/
def extract_repo_name (url : String) : Option String :=
  let url := rstripChars url ['/']
  let url := rstripChars url ['.', 'g', 'i', 't']
  if url.data.contains '/' then some ((pySplitChar url '/').getLastD "") else none

/-- The directory-name derivation as the specification words it: the last
non-empty path segment of the normalized URL (trailing `'/'` removed, a
`".git"` SUFFIX removed), case-sensitive and verbatim. Stated for
comparison with `extract_repo_name`. -/
def spec_repo_name (url : String) : Option String :=
  let u := rstripChars url ['/']
  let u := if pyEndsWith u ".git" then String.mk (u.data.take (u.data.length - 4)) else u
  ((pySplitChar u '/').filter (fun seg => seg ≠ "")).getLast?

/-- The `git` collaborator, abstracted: success of `git clone` (keyed by the
normalized URL and the target directory name) and of `git pull --ff-only`
(keyed by the target directory name). `clone_or_pull` consults only exit
codes, so booleans suffice. -/
structure GitEnv where
  cloneOk : String → String → Bool
  pullOk : String → Bool

/-- The branch `clone_or_pull` took. -/
inductive SyncAction
  | cloned
  | updated
  | invalid
  deriving DecidableEq

/-- Result of one `clone_or_pull` call: the returned boolean, the branch
taken, and the set of subdirectories of `nodes_dir` afterwards. -/
structure SyncResult where
  ok : Bool
  action : SyncAction
  dirs : Finset String

/-- URL normalization at the top of `clone_or_pull`: append `".git"` unless
already present. -/
def normalizeGitUrl (url : String) : String :=
  if pyEndsWith url ".git" then url else url ++ ".git"

/-- `clone_or_pull` from `download_nodes.py`, over the set `dirs` of existing
subdirectories of `nodes_dir`. The Python guard `if not repo_name:` rejects
a falsy name — `None` or the empty string (reachable, e.g. from
`https://github.com/a/`) — and returns `False` without touching git. A
failing `pull --ff-only` only logs a warning and the function still returns
`True`; a failing clone returns `False` and creates no directory. -/
def clone_or_pull (env : GitEnv) (url : String) (dirs : Finset String) : SyncResult :=
  let url := normalizeGitUrl url
  match extract_repo_name url with
  | none => ⟨false, .invalid, dirs⟩
  | some repo_name =>
    if repo_name = "" then
      ⟨false, .invalid, dirs⟩
    else if repo_name ∈ dirs then
      ⟨true, .updated, dirs⟩
    else if env.cloneOk url repo_name then
      ⟨true, .cloned, insert repo_name dirs⟩
    else
      ⟨false, .cloned, dirs⟩

/-- The per-entry loop of `main` in `download_nodes.py`: process every
repository in order, threading the directory set, and count successes and
failures. Returns `(success_count, fail_count, final dirs)`. -/
def processRepos (env : GitEnv) : List String → Finset String → Nat × Nat × Finset String
  | [], dirs => (0, 0, dirs)
  | r :: rest, dirs =>
    let res := clone_or_pull env r dirs
    let acc := processRepos env rest res.dirs
    if res.ok then (acc.1 + 1, acc.2.1, acc.2.2) else (acc.1, acc.2.1 + 1, acc.2.2)

/-- Observable outcome of `main` in `download_nodes.py`. `exitCode` is the
process exit status; `reportPrinted` records whether the final
`download_nodes_complete` summary was logged; `tip` whether the success tip
was logged. -/
structure MainResult where
  exitCode : Nat
  successful : Nat
  failed : Nat
  reportPrinted : Bool
  tip : Bool
  dirs : Finset String
  deriving DecidableEq

/-- `main` from `download_nodes.py`, after argument parsing: if the config
file is missing it exits with status 1; otherwise it processes every
repository, always logs the summary, logs the tip exactly when no entry
failed, and falls off the end of `main` (exit status 0). -/
def download_nodes_main (env : GitEnv) (configExists : Bool) (repos : List String)
    (dirs : Finset String) : MainResult :=
  if configExists then
    let acc := processRepos env repos dirs
    { exitCode := 0, successful := acc.1, failed := acc.2.1,
      reportPrinted := true, tip := acc.2.1 = 0, dirs := acc.2.2 }
  else
    { exitCode := 1, successful := 0, failed := 0,
      reportPrinted := false, tip := false, dirs := dirs }

/-- An environment in which every git invocation succeeds. -/
def gitAllOk : GitEnv := ⟨fun _ _ => true, fun _ => true⟩

/-! ## `setup/add_node.py` — node registry mutation -/

/-- The closed category set of `add_node.py`. -/
def VALID_CATEGORIES : List String :=
  ["manager", "utilities", "image_output", "prompt_styling", "upscaling",
   "controlnet_depth", "face_portrait", "segmentation", "video_animation",
   "vision_tagging", "advanced", "translation", "other"]

/-- The persisted `nodes.yaml` registry: an insertion-ordered mapping from
category to the list of URL strings under it. -/
abbrev NodeConfig := List (String × List String)

/-- Observable outcome of `add_node`. `invalidUrl` is `sys.exit(1)` before
the registry file is read; `alreadyExists` is `sys.exit(0)` with no write;
`written` carries the new registry contents. -/
inductive AddNodeResult
  | invalidUrl
  | alreadyExists (cat : String)
  | written (cfg : NodeConfig)
  deriving DecidableEq

/-- URL normalization at the top of `add_node`: strip trailing slashes,
then remove an exact `".git"` suffix (`url[:-4]`). -/
def normalizeNodeUrl (url : String) : String :=
  let url := rstripChars url ['/']
  if pyEndsWith url ".git" then String.mk (url.data.take (url.data.length - 4)) else url

/-- The GitHub-URL shape check of `add_node`. -/
def nodeUrlValid (url : String) : Bool :=
  pyStartsWith url "https://github.com/" && decide (4 ≤ pyCountChar url '/')

/-- The normalization `add_node` applies to each URL already in the
registry before comparing:
`existing_url.rstrip("/").rstrip(".git").replace(".git", "")`. Note the
`rstrip(".git")` character-set strip and the interior `replace`. -/
def existingNodeNorm (u : String) : String :=
  pyRemoveAll (rstripChars (rstripChars u ['/']) ['.', 'g', 'i', 't']) ".git"

/-- The duplicate scan of `add_node`: the first category whose list holds a
URL whose `existingNodeNorm` equals the (already normalized) new URL. -/
def findNodeDup (cfg : NodeConfig) (url : String) : Option String :=
  cfg.findSome? (fun p =>
    if p.2.any (fun e => existingNodeNorm e = url) then some p.1 else none)

/-- Python dict update `config[cat].append(url)` with
`config[cat] = []` first when the key is new (new keys go to the end,
insertion order preserved). -/
def nodeConfigAppend (cfg : NodeConfig) (cat url : String) : NodeConfig :=
  match cfg.lookup cat with
  | none => cfg ++ [(cat, [url])]
  | some _ => cfg.map (fun p => if p.1 = cat then (p.1, p.2 ++ [url]) else p)

/-- `add_node` from `add_node.py`, over the loaded registry contents
`cfg`: normalize, validate the URL shape (exit 1), downgrade an unknown
category to `"other"`, skip silently (exit 0) when the duplicate scan
matches, otherwise append and write. -/
def add_node (url category : String) (cfg : NodeConfig) : AddNodeResult :=
  let url := normalizeNodeUrl url
  if ¬ nodeUrlValid url then .invalidUrl
  else
    let category := if VALID_CATEGORIES.contains category then category else "other"
    match findNodeDup cfg url with
    | some cat => .alreadyExists cat
    | none => .written (nodeConfigAppend cfg category url)

/-! ## `setup/add_model.py` — model registry mutation -/

/-- The closed folder set of `add_model.py`. -/
def VALID_FOLDERS : List String :=
  ["checkpoints", "clip", "clip_vision", "configs", "controlnet",
   "controlnet/flux", "diffusers", "diffusion_models", "embeddings", "gligen",
   "hypernetworks", "loras", "photomaker", "style_models", "unet",
   "upscale_models", "vae", "vae_approx", "sam2", "ultralytics/bbox",
   "ultralytics/segm", "mmdets", "onnx", "liveportrait"]

/-- One entry of `models.yaml`: a dict with a `url` and an optional
`name`. -/
structure ModelItem where
  url : String
  name : Option String
  deriving DecidableEq

/-- The persisted `models.yaml` registry: an insertion-ordered mapping from
folder to its list of entries. -/
abbrev ModelConfig := List (String × List ModelItem)

/-- Observable outcome of `add_model`. `invalidFolder` and `filenameError`
are `sys.exit(1)` before the registry file is read; `cancelled` is the
declined re-add confirmation (`sys.exit(0)`, no write); `written` carries
the new registry contents. -/
inductive AddModelResult
  | invalidFolder
  | filenameError
  | cancelled
  | written (cfg : ModelConfig)
  deriving DecidableEq

/-- `urlparse(url).path` of CPython's `urlsplit`, for the URL shapes the
script meets: drop a syntactically valid `scheme:`, then a `//netloc`
(up to the first of `/`, `?`, `#`), then everything from the first `#`,
then everything from the first `?`. -/
def isSchemeChar (c : Char) : Bool :=
  c.isAlpha || c.isDigit || c = '+' || c = '-' || c = '.'

/-- Drop a leading `scheme:` when the text before the first `:` is a valid
scheme (non-empty, leading ASCII letter, scheme characters only). -/
def dropScheme (cs : List Char) : List Char :=
  let before := cs.takeWhile (fun c => c ≠ ':')
  if before.length = cs.length then cs
  else
    match before with
    | [] => cs
    | c0 :: rest =>
      if c0.isAlpha && rest.all isSchemeChar then cs.drop (before.length + 1) else cs

/-- Drop a leading `//netloc` (netloc runs to the first `/`, `?` or `#`). -/
def dropNetloc : List Char → List Char
  | '/' :: '/' :: rest => rest.dropWhile (fun c => c ≠ '/' && c ≠ '?' && c ≠ '#')
  | cs => cs

/-- The `path` component of `urlparse(url)`. -/
def urlparse_path (url : String) : String :=
  let cs := dropScheme url.data
  let cs := dropNetloc cs
  let cs := cs.takeWhile (fun c => c ≠ '#')
  let cs := cs.takeWhile (fun c => c ≠ '?')
  String.mk cs

/-- Hexadecimal digit value, as accepted by `urllib.parse.unquote`. -/
def hexVal (c : Char) : Option Nat :=
  if '0' ≤ c ∧ c ≤ '9' then some (c.toNat - '0'.toNat)
  else if 'a' ≤ c ∧ c ≤ 'f' then some (c.toNat - 'a'.toNat + 10)
  else if 'A' ≤ c ∧ c ≤ 'F' then some (c.toNat - 'A'.toNat + 10)
  else none

/-- `urllib.parse.unquote` restricted to single-byte escapes: every valid
`%XX` becomes the character with code `XX`; an invalid escape keeps the
`%` literally. (Multi-byte UTF-8 escape sequences, which the repository
never relies on, are out of scope of the claims.) -/
def pyUnquoteAux : List Char → List Char
  | [] => []
  | '%' :: a :: b :: rest =>
    match hexVal a, hexVal b with
    | some ha, some hb => Char.ofNat (16 * ha + hb) :: pyUnquoteAux rest
    | _, _ => '%' :: pyUnquoteAux (a :: b :: rest)
  | c :: rest => c :: pyUnquoteAux rest

/-- `urllib.parse.unquote` on strings (single-byte escapes). -/
def pyUnquote (s : String) : String :=
  String.mk (pyUnquoteAux s.data)

/-- `PurePosixPath(p).name`: the last path component after dropping empty
and `"."` components (`""` when none remain). -/
def pathName (p : String) : String :=
  ((pySplitChar p '/').filter (fun c => c ≠ "" && c ≠ ".")).getLastD ""

/-- `extract_filename` from `add_model.py`: URL-decode the URL path, take
its final component, reject `""`, `"download"`, `"resolve"` and purely
numeric candidates, then strip a trailing query string from the candidate
(returning `None` when the strip leaves nothing). -/
def extract_filename (url : String) : Option String :=
  let path := pyUnquote (urlparse_path url)
  let filename := pathName path
  if filename = "" ∨ filename = "download" ∨ filename = "resolve" ∨ pyIsdigit filename then
    none
  else
    let filename :=
      if filename.data.contains '?' then (pySplitChar filename '?').headD "" else filename
    if filename = "" then none else some filename

/-- Python dict update `config[folder].append(item)` with
`config[folder] = []` first when the key is new. -/
def modelConfigAppend (cfg : ModelConfig) (folder : String) (it : ModelItem) : ModelConfig :=
  match cfg.lookup folder with
  | none => cfg ++ [(folder, [it])]
  | some _ => cfg.map (fun p => if p.1 = folder then (p.1, p.2 ++ [it]) else p)

/-- `add_model` from `add_model.py`, over the loaded registry contents
`cfg`. `confirmYes` models the interactive `Add anyway? [y/N]` response
being `"y"`: validate the folder (exit 1), determine the filename
(explicit name wins, else derivation; underivable is exit 1), ask on a
`(folder, name)` duplicate and exit 0 when declined, otherwise append and
write. -/
def add_model (url folder new_name : String) (confirmYes : Bool) (cfg : ModelConfig) :
    AddModelResult :=
  if ¬ VALID_FOLDERS.contains folder then .invalidFolder
  else
    match if new_name ≠ "" then some new_name else extract_filename url with
    | none => .filenameError
    | some filename =>
      let dup :=
        match cfg.lookup folder with
        | some items => items.any (fun it => it.name = some filename)
        | none => false
      if dup && ! confirmYes then .cancelled
      else .written (modelConfigAppend cfg folder ⟨url, some filename⟩)

/-! ## `setup/download_models.py` — batch download planner -/

/-- One model as loaded by `load_models_from_yaml`: url, target folder,
optional name. -/
structure ModelEntry where
  url : String
  folder : String
  name : Option String
  deriving DecidableEq

/-- The output path one entry contributes to the aria2c manifest:
`folder/name` if `model.get("name")` is truthy (present and non-empty),
the folder alone otherwise. -/
def aria2OutputPath (m : ModelEntry) : String :=
  match m.name with
  | some n => if n = "" then m.folder else m.folder ++ "/" ++ n
  | none => m.folder

/-- The `(sourceUrl, relativeOutputPath)` pair one entry contributes. -/
def aria2Pair (m : ModelEntry) : String × String :=
  (m.url, aria2OutputPath m)

/-- `generate_aria2_input` from `download_models.py`: for each model, in
order, a URL line followed by an indented `out=` directive, joined with
newlines. Pure data transformation, no I/O. -/
def generate_aria2_input (models : List ModelEntry) : String :=
  String.intercalate "\n"
    (List.flatten (models.map (fun m => [m.url, "  out=" ++ aria2OutputPath m])))

/-- Rendering of an ordered `(sourceUrl, relativeOutputPath)` manifest in
aria2c input-file syntax. -/
def renderAria2 (pairs : List (String × String)) : String :=
  String.intercalate "\n"
    (List.flatten (pairs.map (fun p => [p.1, "  out=" ++ p.2])))

/-! ## `setup/detect_gpu.py` — capability probe chain and install table -/

/-- Result of one external command as far as `run_command` observes it:
a completed process, a missing binary (`FileNotFoundError`), or a timeout
(`subprocess.TimeoutExpired`). -/
inductive CmdOutcome
  | completed (code : Int) (stdout : String) (stderr : String)
  | toolMissing
  | timedOut
  deriving DecidableEq

/-- The host environment: what each vendor command returns, and
`platform.system()`. -/
structure SysEnv where
  run : List String → CmdOutcome
  platformSystem : String

/-- `run_command` from `detect_gpu.py`: return `(returncode, stdout,
stderr)`, mapping both `FileNotFoundError` and `TimeoutExpired` to
`(-1, "", "")` — never an exception. -/
def run_command (env : SysEnv) (cmd : List String) : Int × String × String :=
  match env.run cmd with
  | .completed c o e => (c, o, e)
  | .toolMissing => (-1, "", "")
  | .timedOut => (-1, "", "")

/-- A detected GPU, mirroring the dicts built by the three probes. -/
inductive GpuInfo
  | nvidia (name driver memory : String) (cuda_version : Option String)
  | mps (name : String)
  | rocm (name : String)
  deriving DecidableEq

/-- The nvidia-smi query command of `detect_nvidia_gpu`. -/
def nvidiaQueryCmd : List String :=
  ["nvidia-smi", "--query-gpu=name,driver_version,memory.total", "--format=csv,noheader"]

/-- The sysctl command of `detect_apple_silicon`. -/
def sysctlBrandCmd : List String :=
  ["sysctl", "-n", "machdep.cpu.brand_string"]

/-- The rocm-smi command of `detect_amd_gpu`. -/
def rocmQueryCmd : List String :=
  ["rocm-smi", "--showproductname"]

/-- One attempt of `re.search(r"CUDA Version:\s*(\d+\.\d+)", s)` anchored
at the start of `cs`. -/
def matchCudaVersion (cs : List Char) : Option String :=
  if ("CUDA Version:".data).isPrefixOf cs then
    let rest := (cs.drop 13).dropWhile (fun c => pyWhitespace.contains c)
    let d1 := rest.takeWhile Char.isDigit
    if d1 = [] then none
    else
      match rest.drop d1.length with
      | '.' :: r2 =>
        let d2 := r2.takeWhile Char.isDigit
        if d2 = [] then none else some (String.mk (d1 ++ '.' :: d2))
      | _ => none
  else none

/-- Leftmost match of `re.search(r"CUDA Version:\s*(\d+\.\d+)", s)`. -/
def searchCudaVersionAux : List Char → Option String
  | [] => none
  | c :: cs =>
    match matchCudaVersion (c :: cs) with
    | some v => some v
    | none => searchCudaVersionAux cs

/-- `re.search(r"CUDA Version:\s*(\d+\.\d+)", s)`, returning group 1. -/
def searchCudaVersion (s : String) : Option String :=
  searchCudaVersionAux s.data

/-- `detect_nvidia_gpu` from `detect_gpu.py`. -/
def detect_nvidia_gpu (env : SysEnv) : Option GpuInfo :=
  let r := run_command env nvidiaQueryCmd
  if r.1 ≠ 0 then none
  else
    let lines := pySplitStr (pyStrip r.2.1) "\n"
    if lines.headD "" = "" then none
    else
      let parts := pySplitStr (lines.headD "") ", "
      if parts.length < 3 then none
      else
        let r2 := run_command env ["nvidia-smi"]
        let cuda_version := if r2.1 = 0 then searchCudaVersion r2.2.1 else none
        some (.nvidia (pyStrip (parts.getD 0 "")) (pyStrip (parts.getD 1 ""))
          (pyStrip (parts.getD 2 "")) cuda_version)

/-- `detect_apple_silicon` from `detect_gpu.py`. -/
def detect_apple_silicon (env : SysEnv) : Option GpuInfo :=
  if env.platformSystem ≠ "Darwin" then none
  else
    let r := run_command env sysctlBrandCmd
    if r.1 ≠ 0 then none
    else
      let cpu_brand := pyStrip r.2.1
      if pyContainsStr cpu_brand "Apple" then some (.mps cpu_brand) else none

/-- `detect_amd_gpu` from `detect_gpu.py`. -/
def detect_amd_gpu (env : SysEnv) : Option GpuInfo :=
  let r := run_command env rocmQueryCmd
  if r.1 ≠ 0 then none else some (.rocm (pyStrip r.2.1))

/-- The probe chain of `main` in `detect_gpu.py`: NVIDIA first, Apple
silicon only when that found nothing, AMD only when both found nothing. -/
def detect_gpu_chain (env : SysEnv) : Option GpuInfo :=
  match detect_nvidia_gpu env with
  | some g => some g
  | none =>
    match detect_apple_silicon env with
    | some g => some g
    | none => detect_amd_gpu env

/-- `CUDA_PYTORCH_MAP` from `detect_gpu.py`: driver CUDA major version to
recommended PyTorch CUDA build. -/
def CUDA_PYTORCH_MAP : List (String × String) :=
  [("13", "cu130"), ("12", "cu128"), ("11", "cu118")]

/-- The stable-release install arguments keyed by an index URL suffix. -/
def torchIndexArgs (suffix : String) : List String :=
  ["uv", "pip", "install", "torch", "torchvision", "torchaudio",
   "--index-url", "https://download.pytorch.org/whl/" ++ suffix]

/-- The nightly install arguments for a PyTorch CUDA build. -/
def torchNightlyArgs (pc : String) : List String :=
  ["uv", "pip", "install", "--pre", "torch", "torchvision", "torchaudio",
   "--index-url", "https://download.pytorch.org/whl/nightly/" ++ pc]

/-- The `--extra-index-url` variant used for `cu130`. -/
def torchExtraIndexArgs (pc : String) : List String :=
  ["uv", "pip", "install", "torch", "torchvision", "torchaudio",
   "--extra-index-url", "https://download.pytorch.org/whl/" ++ pc]

/-- The plain default-index install arguments (Apple silicon, and the
unreachable unknown-type fallthrough). -/
def torchDefaultArgs : List String :=
  ["uv", "pip", "install", "torch", "torchvision", "torchaudio"]

/-- `get_pytorch_install_command` from `detect_gpu.py`. Returns `none`
exactly on the one path where the Python raises (`cuda_version` present
but `None`: `None.split` is an `AttributeError`); every other input
produces the `(label, argv)` recommendation. -/
def get_pytorch_install_command (g : Option GpuInfo) (use_nightly : Bool) :
    Option (String × List String) :=
  match g with
  | none => some ("cpu", torchIndexArgs "cpu")
  | some (.nvidia _ _ _ cv) =>
    match cv with
    | none => none
    | some v =>
      let cuda_major := (pySplitStr v ".").headD ""
      let pytorch_cuda := (CUDA_PYTORCH_MAP.lookup cuda_major).getD "cu128"
      if use_nightly then
        some ("cuda-nightly (" ++ pytorch_cuda ++ ")", torchNightlyArgs pytorch_cuda)
      else if pytorch_cuda = "cu130" then
        some ("cuda (" ++ pytorch_cuda ++ ")", torchExtraIndexArgs pytorch_cuda)
      else
        some ("cuda (" ++ pytorch_cuda ++ ")", torchIndexArgs pytorch_cuda)
  | some (.mps _) => some ("mps", torchDefaultArgs)
  | some (.rocm _) =>
    some ("rocm", ["uv", "pip", "install", "torch", "torchvision", "torchaudio",
      "--index-url", "https://download.pytorch.org/whl/rocm6.2"])

/-- A host with no NVIDIA and no AMD tool, running on Apple silicon:
`sysctl` answers, everything else is missing. -/
def appleEnv : SysEnv :=
  ⟨fun cmd => if cmd = sysctlBrandCmd then .completed 0 "Apple M2 Max\n" "" else .toolMissing,
   "Darwin"⟩

/-! ## Theorems -/

/-- Every entry is processed: the success and failure counts always add up
to the number of entries, whatever the git collaborator does. -/
theorem processRepos_counts (env : GitEnv) (repos : List String) (dirs : Finset String) :
    (processRepos env repos dirs).1 + (processRepos env repos dirs).2.1 = repos.length := by
  induction repos generalizing dirs with
  | nil => simp [processRepos]
  | cons r rest ih =>
    have h := ih (clone_or_pull env r dirs).dirs
    by_cases hok : (clone_or_pull env r dirs).ok
    · simp only [processRepos, hok, if_true]
      simpa using by omega
    · simp only [processRepos, hok, if_false]
      simpa using by omega

/-- C1: running `clone_or_pull` twice on the same entry with the same git
environment — a valid entry, that is one whose derived name is non-empty
(Python's `if not repo_name:` guard) — clones the first time, takes the
existing-directory (update/skip) branch the second time — never clones
again — and leaves the set of destination directories identical after both
runs. -/
theorem clone_or_pull_idempotent (env : GitEnv) (url : String) (s : Finset String)
    (n : String)
    (hname : extract_repo_name (normalizeGitUrl url) = some n)
    (hne : n ≠ "")
    (habsent : n ∉ s)
    (hclone : env.cloneOk (normalizeGitUrl url) n = true) :
    (clone_or_pull env url s).action = .cloned ∧
    (clone_or_pull env url s).ok = true ∧
    (clone_or_pull env url (clone_or_pull env url s).dirs).action = .updated ∧
    (clone_or_pull env url (clone_or_pull env url s).dirs).ok = true ∧
    (clone_or_pull env url (clone_or_pull env url s).dirs).dirs =
      (clone_or_pull env url s).dirs := by
  have h1 : clone_or_pull env url s = ⟨true, .cloned, insert n s⟩ := by
    simp [clone_or_pull, hname, hne, habsent, hclone]
  have h2 : clone_or_pull env url (insert n s) = ⟨true, .updated, insert n s⟩ := by
    simp [clone_or_pull, hname, hne]
  rw [h1, h2]
  exact ⟨rfl, rfl, rfl, rfl, rfl⟩

/-- Witness for `clone_or_pull_idempotent` at a concrete entry. -/
theorem clone_or_pull_idempotent_witness :
    extract_repo_name (normalizeGitUrl "https://github.com/a/alpha") = some "alpha" ∧
    "alpha" ≠ "" ∧
    "alpha" ∉ (∅ : Finset String) ∧
    gitAllOk.cloneOk (normalizeGitUrl "https://github.com/a/alpha") "alpha" = true ∧
    ((clone_or_pull gitAllOk "https://github.com/a/alpha" ∅).action = .cloned ∧
      (clone_or_pull gitAllOk "https://github.com/a/alpha" ∅).ok = true ∧
      (clone_or_pull gitAllOk "https://github.com/a/alpha"
        (clone_or_pull gitAllOk "https://github.com/a/alpha" ∅).dirs).action = .updated ∧
      (clone_or_pull gitAllOk "https://github.com/a/alpha"
        (clone_or_pull gitAllOk "https://github.com/a/alpha" ∅).dirs).ok = true ∧
      (clone_or_pull gitAllOk "https://github.com/a/alpha"
          (clone_or_pull gitAllOk "https://github.com/a/alpha" ∅).dirs).dirs =
        (clone_or_pull gitAllOk "https://github.com/a/alpha" ∅).dirs) :=
  ⟨by decide, by decide, by decide, rfl,
    clone_or_pull_idempotent gitAllOk "https://github.com/a/alpha" ∅ "alpha"
      (by decide) (by decide) (by decide) rfl⟩

/-- C2: the reconciliation driver processes every entry regardless of
earlier failures — the success and failure counts always sum to the number
of entries — and on the concrete registry with 3 entries whose 2nd is an
invalid URL it reports exactly 2 successes and 1 failure, with both valid
entries' directories present afterwards. -/
theorem driver_failure_isolation :
    (∀ (env : GitEnv) (repos : List String) (dirs : Finset String),
      (processRepos env repos dirs).1 + (processRepos env repos dirs).2.1 = repos.length) ∧
    (processRepos gitAllOk
      ["https://github.com/a/alpha", "nonsense", "https://github.com/b/beta"] ∅).1 = 2 ∧
    (processRepos gitAllOk
      ["https://github.com/a/alpha", "nonsense", "https://github.com/b/beta"] ∅).2.1 = 1 ∧
    "alpha" ∈ (processRepos gitAllOk
      ["https://github.com/a/alpha", "nonsense", "https://github.com/b/beta"] ∅).2.2 ∧
    "beta" ∈ (processRepos gitAllOk
      ["https://github.com/a/alpha", "nonsense", "https://github.com/b/beta"] ∅).2.2 :=
  ⟨processRepos_counts, by decide, by decide, by decide, by decide⟩

/-- C4 counterexample: a run (config present) with exactly one failed entry
still exits with status 0, refuting "exits non-zero if and only if at least
one entry failed". -/
theorem main_exit_code_counterexample :
    ¬ (((download_nodes_main gitAllOk true ["nonsense"] ∅).exitCode ≠ 0) ↔
        0 < (download_nodes_main gitAllOk true ["nonsense"] ∅).failed) := by
  decide

/-- C4 (amended): a run with partial failures still produces the complete
summary with success and failure counts summing to the number of entries,
the tip is logged exactly when no entry failed, but the process exit status
is 0 regardless of entry failures; the only non-zero exit of `main` is the
missing-config path (status 1). -/
theorem main_report_and_exit (env : GitEnv) (repos : List String) (dirs : Finset String) :
    (download_nodes_main env true repos dirs).reportPrinted = true ∧
    (download_nodes_main env true repos dirs).successful +
      (download_nodes_main env true repos dirs).failed = repos.length ∧
    (download_nodes_main env true repos dirs).exitCode = 0 ∧
    ((download_nodes_main env true repos dirs).tip = true ↔
      (download_nodes_main env true repos dirs).failed = 0) ∧
    (download_nodes_main env false repos dirs).exitCode = 1 := by
  refine ⟨rfl, ?_, rfl, ?_, rfl⟩
  · simpa [download_nodes_main] using processRepos_counts env repos dirs
  · simp [download_nodes_main]

/-- C3 (code bug): because `rstrip(".git")` strips a trailing run of the
characters `.`, `g`, `i`, `t` rather than the `".git"` suffix,
`extract_repo_name` over-strips a repository name that ends in one of those
characters, diverging from the specified verbatim last path segment. -/
theorem extract_repo_name_overstrip :
    extract_repo_name "https://github.com/user/digit" = some "d" ∧
    spec_repo_name "https://github.com/user/digit" = some "digit" ∧
    extract_repo_name "https://github.com/user/digit" ≠
      spec_repo_name "https://github.com/user/digit" := by
  decide

/-- Splitting at a character that does not occur yields the whole list. -/
theorem splitOnCharAux_of_not_mem (c : Char) (cs : List Char)
    (h : cs.contains c = false) : splitOnCharAux c cs = [cs] := by
  induction cs with
  | nil => rfl
  | cons x xs ih =>
    simp only [List.contains_cons, Bool.or_eq_false_iff, beq_eq_false_iff_ne, ne_eq] at h
    simp [splitOnCharAux, ih h.2, Ne.symm h.1]

/-- When a string does not contain the separator, the head of the Python
split is the string itself. -/
theorem pySplitChar_headD_of_not_contains (s : String) (c : Char)
    (h : s.data.contains c = false) : (pySplitChar s c).headD "" = s := by
  cases s with
  | mk d =>
    simp [pySplitChar, splitOnCharAux_of_not_mem c d h]

/-- C5 counterexample: for `https://host/a/%3Fx` the decoded final path
segment is `"?x"`, which is neither empty, `"download"`, `"resolve"` nor
purely numeric — yet `extract_filename` yields no name, because the
query-string strip empties the candidate. -/
theorem extract_filename_counterexample :
    pathName (pyUnquote (urlparse_path "https://host/a/%3Fx")) = "?x" ∧
    ¬ ("?x" = "" ∨ "?x" = "download" ∨ "?x" = "resolve" ∨ pyIsdigit "?x" = true) ∧
    extract_filename "https://host/a/%3Fx" = none := by
  decide

/-- C5 (amended): filename derivation URL-decodes the URL path, takes its
final segment, strips a trailing query string from it, and returns no name
exactly when the segment is empty, `"download"`, `"resolve"`, purely
numeric, or when the query-string strip leaves nothing (a segment whose
decoded form starts with `?`); any returned name is the segment with its
trailing query string stripped. The spec's three examples evaluate as
stated. -/
theorem extract_filename_spec (url : String) :
    (extract_filename url = none ↔
      (pathName (pyUnquote (urlparse_path url)) = "" ∨
        pathName (pyUnquote (urlparse_path url)) = "download" ∨
        pathName (pyUnquote (urlparse_path url)) = "resolve" ∨
        pyIsdigit (pathName (pyUnquote (urlparse_path url))) = true ∨
        (pySplitChar (pathName (pyUnquote (urlparse_path url))) '?').headD "" = "")) ∧
    (∀ f, extract_filename url = some f →
      f = (pySplitChar (pathName (pyUnquote (urlparse_path url))) '?').headD "") ∧
    extract_filename "https://host/a/b/model.safetensors?x=1" = some "model.safetensors" ∧
    extract_filename "https://host/a/b/resolve" = none ∧
    extract_filename "https://host/a/b/123" = none := by
  set seg := pathName (pyUnquote (urlparse_path url)) with hsegdef
  set q := (pySplitChar seg '?').headD "" with hqdef
  clear_value seg q
  have key : extract_filename url =
      if seg = "" ∨ seg = "download" ∨ seg = "resolve" ∨ pyIsdigit seg = true ∨ q = ""
        then none else some q := by
    by_cases hq : seg.data.contains '?'
    · simp only [extract_filename, ← hsegdef, hq, if_true, ← hqdef]
      split_ifs <;> tauto
    · have hel : q = seg := by
        rw [hqdef]
        exact pySplitChar_headD_of_not_contains seg '?' (by simpa using hq)
      simp only [extract_filename, ← hsegdef, hq, if_false, hel]
      split_ifs <;> tauto
  refine ⟨?_, ?_, by decide, by decide, by decide⟩
  · rw [key]
    split_ifs with h
    · simpa using h
    · simpa using h
  · intro f hf
    rw [key] at hf
    split_ifs at hf with h
    all_goals
      first
        | exact (Option.noConfusion hf)
        | exact (Option.some_injective _ hf).symm

/-- Witness for `extract_filename_spec`: the derivation and the query-strip
characterization at a concrete URL, with the inner hypothesis discharged. -/
theorem extract_filename_spec_witness :
    extract_filename "https://host/a/b/model.safetensors?x=1" = some "model.safetensors" ∧
    "model.safetensors" =
      (pySplitChar
        (pathName (pyUnquote (urlparse_path "https://host/a/b/model.safetensors?x=1")))
        '?').headD "" :=
  ⟨(extract_filename_spec "https://host/a/b/model.safetensors?x=1").2.2.1,
    (extract_filename_spec "https://host/a/b/model.safetensors?x=1").2.1
      "model.safetensors"
      (extract_filename_spec "https://host/a/b/model.safetensors?x=1").2.2.1⟩

/-- C6: `generate_aria2_input` is a pure transformation whose output is
exactly the rendering of the ordered manifest holding one
`(sourceUrl, relativeOutputPath)` pair per entry, in entry order; the
output path is the folder alone when the entry has no name and
`folder/name` when it carries a non-empty one. -/
theorem generate_aria2_input_spec (models : List ModelEntry) :
    generate_aria2_input models = renderAria2 (models.map aria2Pair) ∧
    (models.map aria2Pair).length = models.length ∧
    (∀ m : ModelEntry, m.name = none → aria2Pair m = (m.url, m.folder)) ∧
    (∀ (m : ModelEntry) (n : String), m.name = some n → n ≠ "" →
      aria2Pair m = (m.url, m.folder ++ "/" ++ n)) := by
  refine ⟨?_, by simp, ?_, ?_⟩
  · simp only [generate_aria2_input, renderAria2, List.map_map]
    rfl
  · intro m h
    simp [aria2Pair, aria2OutputPath, h]
  · intro m n h hn
    simp [aria2Pair, aria2OutputPath, h, hn]

/-- Witness for `generate_aria2_input_spec`: both output-path cases at
concrete entries. -/
theorem generate_aria2_input_spec_witness :
    aria2Pair ⟨"https://h/m.bin", "loras", none⟩ = ("https://h/m.bin", "loras") ∧
    aria2Pair ⟨"https://h/m.bin", "loras", some "m.bin"⟩ =
      ("https://h/m.bin", "loras/m.bin") :=
  ⟨(generate_aria2_input_spec []).2.2.1 ⟨"https://h/m.bin", "loras", none⟩ rfl,
    (generate_aria2_input_spec []).2.2.2 ⟨"https://h/m.bin", "loras", some "m.bin"⟩
      "m.bin" rfl (by decide)⟩

/-- C7 (code bug): the registry already contains the normalized URL
`https://github.com/a/comfyui` verbatim, yet `add_node` misses the
duplicate — the existing-entry normalization
`rstrip("/").rstrip(".git").replace(".git", "")` over-strips the stored
URL to `.../comfyu` — and appends a second copy instead of skipping with
success. The model half of the policy does hold: declining the re-add
confirmation for an existing `(folder, name)` key leaves the registry
unwritten. -/
theorem add_node_duplicate_missed :
    normalizeNodeUrl "https://github.com/a/comfyui" = "https://github.com/a/comfyui" ∧
    existingNodeNorm "https://github.com/a/comfyui" = "https://github.com/a/comfyu" ∧
    add_node "https://github.com/a/comfyui" "other"
        [("other", ["https://github.com/a/comfyui"])] =
      .written [("other",
        ["https://github.com/a/comfyui", "https://github.com/a/comfyui"])] ∧
    add_model "https://host/x.safetensors" "loras" "" false
        [("loras", [⟨"https://host/x.safetensors", some "x.safetensors"⟩])] =
      .cancelled := by
  refine ⟨by decide, by decide, by decide, by decide⟩

/-- Unfolding of `get_pytorch_install_command` on the NVIDIA branch with a
present compute version. -/
theorem get_pytorch_nvidia_eq (nm dr mem v : String) (nightly : Bool) :
    get_pytorch_install_command (some (.nvidia nm dr mem (some v))) nightly =
      (let pc := (CUDA_PYTORCH_MAP.lookup ((pySplitStr v ".").headD "")).getD "cu128"
        if nightly then some ("cuda-nightly (" ++ pc ++ ")", torchNightlyArgs pc)
        else if pc = "cu130" then some ("cuda (" ++ pc ++ ")", torchExtraIndexArgs pc)
        else some ("cuda (" ++ pc ++ ")", torchIndexArgs pc)) := rfl

/-- C8: the install recommendation is a pure function of the capability
profile: an NVIDIA profile whose compute version has major `"12"` selects
the `cu128` table entry (stable and nightly variants shown), a major
absent from the table falls back to the same `cu128` default instead of
erroring, and repeated evaluation gives the identical plan. -/
theorem recommend_install_plan (nm dr mem v w : String)
    (h12 : (pySplitStr v ".").headD "" = "12")
    (hunk : CUDA_PYTORCH_MAP.lookup ((pySplitStr w ".").headD "") = none) :
    get_pytorch_install_command (some (.nvidia nm dr mem (some v))) false =
      some ("cuda (cu128)", torchIndexArgs "cu128") ∧
    get_pytorch_install_command (some (.nvidia nm dr mem (some v))) true =
      some ("cuda-nightly (cu128)", torchNightlyArgs "cu128") ∧
    get_pytorch_install_command (some (.nvidia nm dr mem (some w))) false =
      get_pytorch_install_command (some (.nvidia nm dr mem (some v))) false ∧
    get_pytorch_install_command (some (.nvidia nm dr mem (some v))) false =
      get_pytorch_install_command (some (.nvidia nm dr mem (some v))) false := by
  refine ⟨?_, ?_, ?_, rfl⟩
  · simp only [get_pytorch_nvidia_eq, h12]
    decide
  · simp only [get_pytorch_nvidia_eq, h12]
    decide
  · simp only [get_pytorch_nvidia_eq, h12, hunk]
    decide

/-- Witness for `recommend_install_plan` at compute versions `12.4`
(tabled) and `99.0` (absent from the table). -/
theorem recommend_install_plan_witness :
    (pySplitStr "12.4" ".").headD "" = "12" ∧
    CUDA_PYTORCH_MAP.lookup ((pySplitStr "99.0" ".").headD "") = none ∧
    get_pytorch_install_command (some (.nvidia "g" "d" "m" (some "12.4"))) false =
      some ("cuda (cu128)", torchIndexArgs "cu128") ∧
    get_pytorch_install_command (some (.nvidia "g" "d" "m" (some "99.0"))) false =
      get_pytorch_install_command (some (.nvidia "g" "d" "m" (some "12.4"))) false :=
  ⟨by decide, by decide,
    (recommend_install_plan "g" "d" "m" "12.4" "99.0" (by decide) (by decide)).1,
    (recommend_install_plan "g" "d" "m" "12.4" "99.0" (by decide) (by decide)).2.2.1⟩

/-- C9: GPU detection is an ordered, short-circuiting chain — NVIDIA
first, Apple silicon only when NVIDIA found nothing, AMD only when both
found nothing, and `run_command` maps a missing vendor tool and a probe
timeout to the identical `(-1, "", "")` result, so each probe reports
"not present" (never an error) in both cases. -/
theorem detect_chain_spec :
    (∀ (env : SysEnv) (g : GpuInfo), detect_nvidia_gpu env = some g →
      detect_gpu_chain env = some g) ∧
    (∀ (env : SysEnv) (g : GpuInfo), detect_nvidia_gpu env = none →
      detect_apple_silicon env = some g → detect_gpu_chain env = some g) ∧
    (∀ env : SysEnv, detect_nvidia_gpu env = none → detect_apple_silicon env = none →
      detect_gpu_chain env = detect_amd_gpu env) ∧
    (∀ (env : SysEnv) (cmd : List String),
      env.run cmd = .toolMissing ∨ env.run cmd = .timedOut →
      run_command env cmd = (-1, "", "")) ∧
    (∀ env : SysEnv,
      env.run nvidiaQueryCmd = .toolMissing ∨ env.run nvidiaQueryCmd = .timedOut →
      detect_nvidia_gpu env = none) ∧
    (∀ env : SysEnv,
      env.run sysctlBrandCmd = .toolMissing ∨ env.run sysctlBrandCmd = .timedOut →
      detect_apple_silicon env = none) ∧
    (∀ env : SysEnv,
      env.run rocmQueryCmd = .toolMissing ∨ env.run rocmQueryCmd = .timedOut →
      detect_amd_gpu env = none) := by
  refine ⟨?_, ?_, ?_, ?_, ?_, ?_, ?_⟩
  · intro env g h
    simp [detect_gpu_chain, h]
  · intro env g h1 h2
    simp [detect_gpu_chain, h1, h2]
  · intro env h1 h2
    simp [detect_gpu_chain, h1, h2]
  · intro env cmd h
    rcases h with h | h <;> simp [run_command, h]
  · intro env h
    rcases h with h | h <;> simp [detect_nvidia_gpu, run_command, h]
  · intro env h
    by_cases hp : env.platformSystem = "Darwin"
    · rcases h with h | h <;> simp [detect_apple_silicon, run_command, h, hp]
    · simp [detect_apple_silicon, hp]
  · intro env h
    rcases h with h | h <;> simp [detect_amd_gpu, run_command, h]

/-- Witness for `detect_chain_spec`: on a Darwin host where only `sysctl`
answers, the NVIDIA probe reports absence (missing tool, not an error),
the chain falls through to the Apple probe, and the AMD tool's absence
maps to the plain `(-1, "", "")` result. -/
theorem detect_chain_spec_witness :
    detect_nvidia_gpu appleEnv = none ∧
    detect_gpu_chain appleEnv = some (.mps "Apple M2 Max") ∧
    run_command appleEnv rocmQueryCmd = (-1, "", "") :=
  ⟨detect_chain_spec.2.2.2.2.1 appleEnv (Or.inl (by decide)),
    detect_chain_spec.2.1 appleEnv (.mps "Apple M2 Max")
      (detect_chain_spec.2.2.2.2.1 appleEnv (Or.inl (by decide))) (by decide),
    detect_chain_spec.2.2.2.1 appleEnv rocmQueryCmd (Or.inl (by decide))⟩

/-- C10: validation precedes all registry I/O in both add operations: a
folder outside the closed set makes `add_model` exit before the registry
is read or written (its result is `invalidFolder` and independent of the
registry contents), and a URL failing the GitHub shape check makes
`add_node` exit before the registry is read or written (its result is
`invalidUrl` and independent of the registry contents); in both cases the
persisted registry is unchanged. -/
theorem validation_precedes_registry_io
    (url folder new_name : String) (c : Bool) (cfgM cfgM' : ModelConfig)
    (urlN cat : String) (cfgN cfgN' : NodeConfig)
    (hf : VALID_FOLDERS.contains folder = false)
    (hu : nodeUrlValid (normalizeNodeUrl urlN) = false) :
    add_model url folder new_name c cfgM = .invalidFolder ∧
    add_model url folder new_name c cfgM = add_model url folder new_name c cfgM' ∧
    add_node urlN cat cfgN = .invalidUrl ∧
    add_node urlN cat cfgN = add_node urlN cat cfgN' := by
  have hf' : folder ∉ VALID_FOLDERS := by simpa using hf
  refine ⟨?_, ?_, ?_, ?_⟩ <;> simp [add_model, add_node, hf', hu]

/-- Witness for `validation_precedes_registry_io`: a concrete invalid
folder and a concrete non-GitHub URL, against non-empty registries. -/
theorem validation_precedes_registry_io_witness :
    VALID_FOLDERS.contains "bogus" = false ∧
    nodeUrlValid (normalizeNodeUrl "ftp://example.com/x") = false ∧
    (add_model "https://host/m.bin" "bogus" "m.bin" false
        [("loras", [⟨"u", some "n"⟩])] = .invalidFolder ∧
      add_model "https://host/m.bin" "bogus" "m.bin" false
          [("loras", [⟨"u", some "n"⟩])] =
        add_model "https://host/m.bin" "bogus" "m.bin" false [] ∧
      add_node "ftp://example.com/x" "other" [("other", ["e"])] = .invalidUrl ∧
      add_node "ftp://example.com/x" "other" [("other", ["e"])] =
        add_node "ftp://example.com/x" "other" []) :=
  ⟨by decide, by decide,
    validation_precedes_registry_io "https://host/m.bin" "bogus" "m.bin" false
      [("loras", [⟨"u", some "n"⟩])] [] "ftp://example.com/x" "other"
      [("other", ["e"])] [] (by decide) (by decide)⟩
